import Mathlib

/-!
Verification of the CINEO movie-generation pipeline.

This file shallowly embeds the generation-orchestration core of the CINEO
repository (`src/models/ai_models.py`, `src/movie_routes.py`,
`src/backend/tasks.py`, `src/backend/database_models.py`, `src/app.py`) and
proves or refutes the frozen specification claims about it.

Conventions of the embedding:
* Python strings become Lean `String`; Python `in` (substring test) becomes
  `strContains`; `str.lower()` becomes `lowerStr`; `str.strip()` becomes
  `pyStrip`.
* SQLAlchemy rows become Lean structures; `None`-able columns become
  `Option`.
* The persistence layer is explicit state passing (see `BackendState`):
  the module `backend/database.py` is imported by `backend/main.py`,
  `movie_routes.py` and `backend/tasks.py` but is absent from the
  repository, so sessions/queries are modelled from the spec's
  "Persistence collaborator" contract (CRUD over one movie's records,
  "list scenes by movie ordered by scene_number").
* Calls to external generative services (OpenRouter, Stability, ElevenLabs,
  Stable Video Diffusion, moviepy) are parameterised by their outcome, since
  their results are environment-dependent; the surrounding control flow is
  translated from the source.
-/

namespace Cineo

/-! ## String helpers (Python semantics) -/

/-- Predicate `leadsWith p s`: `p` is a prefix of `s` (character lists). -/
def leadsWith : List Char → List Char → Bool
  | [], _ => true
  | _ :: _, [] => false
  | a :: as, b :: bs => a == b && leadsWith as bs

/-- Predicate `occursIn p s`: `p` occurs as a contiguous substring of `s`
(character lists); mirrors Python's `p in s`. -/
def occursIn (p : List Char) : List Char → Bool
  | [] => p.isEmpty
  | s@(_ :: t) => leadsWith p s || occursIn p t

/-- Python's `pat in s` substring test. -/
def strContains (s pat : String) : Bool :=
  occursIn pat.data s.data

/-- Python's `s.lower()` (ASCII is all the source needs). -/
def lowerStr (s : String) : String :=
  String.mk (s.data.map Char.toLower)

/-- Characters stripped by Python's bare `str.strip()`. -/
def isPyWhitespace (c : Char) : Bool :=
  c == ' ' || c == '\t' || c == '\n' || c == '\r' || c == '\x0b' || c == '\x0c'

/-- Drop characters satisfying `p` from both ends of a character list. -/
def stripList (p : Char → Bool) (l : List Char) : List Char :=
  ((l.dropWhile p).reverse.dropWhile p).reverse

/-- Python's `s.strip()`. -/
def pyStrip (s : String) : String :=
  String.mk (stripList isPyWhitespace s.data)

/-- Python's `s.strip(chars)` for an explicit character set. -/
def pyStripChars (cs : List Char) (s : String) : String :=
  String.mk (stripList (fun c => cs.contains c) s.data)

/-- Python's `s.isdigit()` restricted to ASCII digits: non-empty and all
digits. -/
def strIsDigit (s : String) : Bool :=
  !s.data.isEmpty && s.data.all Char.isDigit

/-- Split a character list on a separator character (no separator yields
one piece; a trailing separator yields a final empty piece — Python
`str.split(sep)` semantics). -/
def splitOnChar (c : Char) : List Char → List (List Char)
  | [] => [[]]
  | x :: xs =>
    if x == c then [] :: splitOnChar c xs
    else
      match splitOnChar c xs with
      | [] => [[x]]
      | h :: t => (x :: h) :: t

/-- Python's `s.split('\n')`. -/
def pySplitLines (s : String) : List String :=
  (splitOnChar '\n' s.data).map String.mk

/-! ## Mood / sound-effect heuristic selector
(`src/models/ai_models.py`, `SoundEffectsModel`; `AudioModel` carries a
textually identical copy of `_analyze_scene_mood` and
`_calculate_scene_duration`, so one embedding covers both.) -/

/-- One entry of the detected sound-effect list
(`_analyze_scene_for_sound_effects` appends dicts of this shape; the
numeric constants 0.8 / 0.6 from the source are exact decimals, kept as
rationals). -/
structure SoundEffect where
  name : String
  keyword : String
  confidence : ℚ
  duration : ℕ
  volume : ℚ
  position : String
deriving Repr, DecidableEq

/-- Table `sound_effects_map` of `_analyze_scene_for_sound_effects`
(`ai_models.py` lines 585-610), in the dict's insertion order. -/
def soundEffectsMap : List (String × List String) :=
  [ ("factory", ["machinery_hum", "distant_machinery", "factory_ambience"]),
    ("forest", ["birds_chirping", "wind_rustling", "forest_ambience"]),
    ("city", ["traffic", "city_ambience", "people_talking"]),
    ("space", ["space_ambience", "electronic_beeps", "sci_fi_ambience"]),
    ("ocean", ["waves", "seagulls", "ocean_ambience"]),
    ("rain", ["rain", "thunder", "rain_ambience"]),
    ("night", ["crickets", "night_ambience", "distant_dogs"]),
    ("robot", ["robotic_movement", "electronic_beeps", "mechanical_whir"]),
    ("door", ["door_creak", "door_slam", "door_open"]),
    ("explosion", ["explosion", "debris", "shockwave"]),
    ("gunshot", ["gunshot", "bullet_whiz", "shell_drop"]),
    ("footsteps", ["footsteps", "running", "walking"]),
    ("car", ["car_engine", "tires_screeching", "car_horn"]),
    ("computer", ["computer_beeps", "typing", "electronic_chime"]),
    ("phone", ["phone_ring", "dial_tone", "phone_pickup"]),
    ("scary", ["creepy_ambience", "heartbeat", "breathing"]),
    ("happy", ["cheerful_music", "laughing", "celebration"]),
    ("sad", ["somber_music", "sighing", "emotional_ambience"]),
    ("tense", ["tension_build", "clock_ticking", "heartbeat_fast"]) ]

/-- The dict literal appended per detected keyword
(`ai_models.py` lines 622-629): confidence 0.8, duration 3 s, volume 0.6,
position "background". -/
def mkDetectedEffect (effect keyword : String) : SoundEffect :=
  { name := effect, keyword := keyword, confidence := 8/10,
    duration := 3, volume := 6/10, position := "background" }

/-- The keyword scan of `_analyze_scene_for_sound_effects`: for each map
entry whose keyword occurs in the lower-cased description, append all its
effects. -/
def detectedEffects (sceneDescription : String) : List SoundEffect :=
  let descriptionLower := lowerStr sceneDescription
  soundEffectsMap.foldl
    (fun acc e =>
      if strContains descriptionLower e.1 then
        acc ++ e.2.map (fun eff => mkDetectedEffect eff e.1)
      else acc)
    []

/-- The `seen`-set dedup loop of `_analyze_scene_for_sound_effects`:
drop an effect when its name was already seen, keeping first-occurrence
order. -/
def dedupByName : List String → List SoundEffect → List SoundEffect
  | _, [] => []
  | seen, e :: rest =>
    if seen.contains e.name then dedupByName seen rest
    else e :: dedupByName (e.name :: seen) rest

/-- Embedding of `SoundEffectsModel._analyze_scene_for_sound_effects`
(`ai_models.py` lines 583-639): scan keywords, dedup by name, truncate
to 5. -/
def analyzeSceneForSoundEffects (sceneDescription : String) : List SoundEffect :=
  (dedupByName [] (detectedEffects sceneDescription)).take 5

/-- Table `mood_keywords` of `_analyze_scene_mood` (`ai_models.py` lines
784-793 and the identical copy at lines 1086-1095), in dict insertion
order. -/
def moodKeywords : List (String × List String) :=
  [ ("dramatic", ["dramatic", "intense", "climax", "confrontation", "battle", "fight"]),
    ("peaceful", ["peaceful", "calm", "quiet", "serene", "beautiful", "contemplative"]),
    ("intense", ["chase", "pursuit", "danger", "threat", "fear", "panic"]),
    ("mysterious", ["mystery", "unknown", "strange", "weird", "puzzle", "investigation"]),
    ("epic", ["epic", "grand", "heroic", "victory", "triumph", "achievement"]),
    ("romantic", ["love", "romance", "kiss", "emotional", "heart", "relationship"]),
    ("suspenseful", ["suspense", "tension", "waiting", "anticipation", "uncertainty"]),
    ("cheerful", ["happy", "joy", "celebration", "fun", "comedy", "light"]) ]

/-- Table `genre_default_moods` of `_analyze_scene_mood` (`ai_models.py` lines
802-810 / 1104-1112). -/
def genreDefaultMoods : List (String × String) :=
  [ ("romance", "romantic"), ("horror", "suspenseful"), ("action", "intense"),
    ("comedy", "cheerful"), ("fantasy", "epic"), ("sci-fi", "mysterious"),
    ("drama", "dramatic") ]

/-- Embedding of `_analyze_scene_mood(scene_description, movie_genre)`
(`ai_models.py` lines 779-812 and 1081-1114).  The source's nested loop
returns the mood of the first keyword found; since the returned value is
the mood tag, this equals taking the first mood category whose keyword
list has any match. -/
def analyzeSceneMood (sceneDescription movieGenre : String) : String :=
  let descriptionLower := lowerStr sceneDescription
  match moodKeywords.find? (fun p => p.2.any (fun kw => strContains descriptionLower kw)) with
  | some p => p.1
  | none =>
    match genreDefaultMoods.find? (fun p => p.1 == lowerStr movieGenre) with
    | some p => p.2
    | none => "dramatic"

/-- Embedding of `_calculate_scene_duration(scene_description)` (`ai_models.py` lines
814-834 / 1116-1136). -/
def calculateSceneDuration (sceneDescription : String) : ℕ :=
  let descriptionLower := lowerStr sceneDescription
  if ["battle", "chase", "fight", "confrontation"].any (fun w => strContains descriptionLower w) then 45
  else if ["looks at", "thinks", "remembers", "pause"].any (fun w => strContains descriptionLower w) then 20
  else if ["says", "tells", "asks", "dialogue"].any (fun w => strContains descriptionLower w) then 35
  else 30

/-! ## Script planner (`TextToScriptModel`, `ai_models.py` lines 23-155) -/

/-- One structured scene of a script (the dicts produced by
`_generate_mock_script` / `_parse_script`). -/
structure SceneSpec where
  scene_number : ℕ
  title : String
  description : String
  dialogue : List String
deriving Repr, DecidableEq

/-- The dict returned by `generate_script` / `_generate_mock_script`. -/
structure ScriptData where
  title : String
  genre : String
  description : String
  script : List SceneSpec
  status : String
deriving Repr, DecidableEq

/-- The three fixed scenes of `TextToScriptModel._generate_mock_script`
(`ai_models.py` lines 89-110). -/
def mockScriptScenes (genre : String) : List SceneSpec :=
  [ { scene_number := 1, title := "Opening Scene",
      description := "The movie opens with a dramatic scene setting up the " ++ genre ++ " atmosphere.",
      dialogue := ["Character 1: This is the beginning of an amazing journey.", "Character 2: Indeed it is!"] },
    { scene_number := 2, title := "Middle Scene",
      description := "The main conflict unfolds as characters face challenges.",
      dialogue := ["Character 1: We must overcome this obstacle!", "Character 2: Together we can!"] },
    { scene_number := 3, title := "Climax",
      description := "The story reaches its peak with intense action and emotion.",
      dialogue := ["Character 1: This is our moment!", "Character 2: Let's do this!"] } ]

/-- Embedding of `TextToScriptModel._generate_mock_script`. -/
def mockScript (title genre description : String) : ScriptData :=
  { title := title, genre := genre, description := description,
    script := mockScriptScenes genre, status := "completed" }

/-- Scene-header test of `_parse_script` (`ai_models.py` line 133):
`'Scene' in line and (':' in line or line.isdigit())`. -/
def isSceneHeader (line : String) : Bool :=
  strContains line "Scene" && (strContains line ":" || strIsDigit line)

/-- Loop state of `_parse_script`: emitted scenes, the scene being built,
and its dialogue buffer. -/
structure ParseState where
  scenes : List SceneSpec
  current : Option SceneSpec
  buffer : List String
deriving Repr

/-- Close the scene under construction (Python's
`current_scene['dialogue'] = dialogue_buffer; scenes.append(current_scene)`). -/
def closeCurrent (st : ParseState) : List SceneSpec :=
  match st.current with
  | some c => st.scenes ++ [{ c with dialogue := st.buffer }]
  | none => st.scenes

/-- One iteration of the line loop of `_parse_script`
(`ai_models.py` lines 127-149). -/
def parseStep (st : ParseState) (rawLine : String) : ParseState :=
  let line := pyStrip rawLine
  if line = "" then st
  else if isSceneHeader line then
    let scenes' := closeCurrent st
    { scenes := scenes',
      current := some { scene_number := scenes'.length + 1,
                        title := pyStripChars [' ', ':'] (line.replace "Scene" ""),
                        description := "", dialogue := [] },
      buffer := [] }
  else
    match st.current with
    | some c =>
      if strContains line ":" then { st with buffer := st.buffer ++ [line] }
      else { st with current := some { c with
               description := if c.description = "" then line else c.description ++ " " ++ line } }
    | none => st

/-- Embedding of `TextToScriptModel._parse_script(script_text)` (`ai_models.py` lines
120-155): split on newlines, run the line loop, close the last scene, cap
at 5 scenes. -/
def parseScript (scriptText : String) : List SceneSpec :=
  (closeCurrent ((pySplitLines scriptText).foldl parseStep ⟨[], none, []⟩)).take 5

/-- Outcome of the OpenRouter chat-completions call in `generate_script`
(`ai_models.py` lines 48-87): a 200 response carrying the message text, a
non-200 response, or a raised exception (timeout, connection error, …). -/
inductive ScriptApiOutcome where
  | ok (text : String)
  | httpError
  | failure
deriving Repr, DecidableEq

/-- Embedding of `TextToScriptModel.generate_script(title, genre, description)`
(`ai_models.py` lines 31-87), parameterised by key availability
(`model_available`) and the API outcome. -/
def generateScript (modelAvailable : Bool) (outcome : ScriptApiOutcome)
    (title genre description : String) : ScriptData :=
  if !modelAvailable then mockScript title genre description
  else
    match outcome with
    | .ok text =>
      { title := title, genre := genre, description := description,
        script := parseScript text, status := "completed" }
    | .httpError => mockScript title genre description
    | .failure => mockScript title genre description

/-! ### Sequential numbering of `_parse_script` output -/

/-- Invariant of the `_parse_script` loop: the emitted scenes are numbered
`1..n` in order, and the scene under construction carries number `n+1`. -/
def ParseInv (st : ParseState) : Prop :=
  st.scenes.map (·.scene_number) = List.range' 1 st.scenes.length ∧
    ∀ c, st.current = some c → c.scene_number = st.scenes.length + 1

theorem closeCurrent_numbers {st : ParseState} (h : ParseInv st) :
    (closeCurrent st).map (·.scene_number) = List.range' 1 (closeCurrent st).length := by
  rcases h with ⟨hs, hc⟩
  unfold closeCurrent
  cases hcur : st.current with
  | none => simpa using hs
  | some c =>
    have hnum := hc c hcur
    simp only [List.map_append, List.length_append, List.map_cons, List.map_nil,
      List.length_cons, List.length_nil]
    rw [hs, hnum]
    rw [List.range'_concat]
    simp [Nat.add_comm]

theorem parseStep_inv {st : ParseState} (h : ParseInv st) (line : String) :
    ParseInv (parseStep st line) := by
  rcases h with ⟨hs, hc⟩
  unfold parseStep
  by_cases h1 : pyStrip line = ""
  · simp [h1]; exact ⟨hs, hc⟩
  · simp only [h1, if_false]
    by_cases h2 : isSceneHeader (pyStrip line) = true
    · simp only [h2, if_true]
      refine ⟨closeCurrent_numbers ⟨hs, hc⟩, ?_⟩
      intro c hcc
      simp only [Option.some.injEq] at hcc
      subst hcc
      rfl
    · simp only [h2]
      cases hcur : st.current with
      | none =>
        simp only [hcur]
        exact ⟨hs, hc⟩
      | some c =>
        simp only [hcur, if_false, Bool.false_eq_true]
        by_cases h3 : strContains (pyStrip line) ":" = true
        · simp only [h3, if_true]
          refine ⟨hs, fun c' h' => ?_⟩
          simp only [Option.some.injEq] at h'
          rw [← h']
          exact hc c hcur
        · simp only [h3, if_false, Bool.false_eq_true]
          refine ⟨hs, fun c' h' => ?_⟩
          simp only [Option.some.injEq] at h'
          rw [← h']
          exact hc c hcur

theorem foldl_parseStep_inv (lines : List String) :
    ParseInv (lines.foldl parseStep ⟨[], none, []⟩) := by
  have h0 : ParseInv ⟨[], none, []⟩ := by
    constructor
    · rfl
    · intro c h; cases h
  generalize hst : (⟨[], none, []⟩ : ParseState) = st0
  rw [hst] at h0
  clear hst
  induction lines generalizing st0 with
  | nil => exact h0
  | cons l ls ih => exact ih (parseStep st0 l) (parseStep_inv h0 l)

theorem take_range' (s n k : ℕ) :
    (List.range' s n).take k = List.range' s (min k n) := by
  induction n generalizing s k with
  | zero => simp
  | succ n ih =>
    cases k with
    | zero => simp
    | succ k =>
      rw [List.range'_succ, List.take_succ_cons, ih, Nat.succ_min_succ, List.range'_succ]

/-- Lemma: `_parse_script` always numbers its output sequentially from 1. -/
theorem parseScript_numbers (text : String) :
    (parseScript text).map (·.scene_number) =
      List.range' 1 (parseScript text).length := by
  unfold parseScript
  have h := foldl_parseStep_inv (pySplitLines text)
  have hclosed := closeCurrent_numbers h
  set l := closeCurrent ((pySplitLines text).foldl parseStep ⟨[], none, []⟩) with hl
  rw [List.map_take, hclosed, take_range', List.length_take]

/-- Lemma: `generate_script` always returns scenes numbered sequentially from 1
(the mock is numbered 1,2,3; the parser numbers by append order). -/
theorem generateScript_numbers (modelAvailable : Bool) (outcome : ScriptApiOutcome)
    (title genre description : String) :
    ((generateScript modelAvailable outcome title genre description).script.map (·.scene_number)) =
      List.range' 1 (generateScript modelAvailable outcome title genre description).script.length := by
  unfold generateScript
  cases modelAvailable with
  | false => simp [mockScript, mockScriptScenes]; decide
  | true =>
    cases outcome with
    | ok text => simpa using parseScript_numbers text
    | httpError => simp [mockScript, mockScriptScenes]; decide
    | failure => simp [mockScript, mockScriptScenes]; decide

/-! ## Creation path of `src/app.py` (`AIModels` + `create_movie_api`) -/

/-- Python's `s[:100]`, used by `_mock_script` in `app.py`. -/
def pyTake100 (s : String) : String :=
  String.mk (s.data.take 100)

/-- The five fixed scenes of `AIModels._mock_script` (`app.py` lines
177-225). -/
def appMockScriptScenes (genre description : String) : List SceneSpec :=
  [ { scene_number := 1, title := "Opening Scene",
      description := "The movie opens with a captivating " ++ genre ++
        " scene that sets the tone. " ++ pyTake100 description ++ "...",
      dialogue := ["PROTAGONIST: This is where our journey begins.",
                   "NARRATOR: In a world where anything is possible..."] },
    { scene_number := 2, title := "The Challenge",
      description := "Our protagonist faces the main conflict that will drive the story forward.",
      dialogue := ["PROTAGONIST: I never expected this to happen.",
                   "ANTAGONIST: You have no idea what's coming."] },
    { scene_number := 3, title := "Rising Action",
      description := "The tension builds as obstacles mount and stakes get higher.",
      dialogue := ["PROTAGONIST: We need to work together.",
                   "ALLY: I'm with you, no matter what."] },
    { scene_number := 4, title := "Climax",
      description := "The ultimate confrontation where everything comes to a head.",
      dialogue := ["PROTAGONIST: This ends now!",
                   "ANTAGONIST: You're too late!"] },
    { scene_number := 5, title := "Resolution",
      description := "The story concludes with resolution and new beginnings.",
      dialogue := ["PROTAGONIST: We did it... we actually did it.",
                   "NARRATOR: And so our story comes to an end, but new adventures await."] } ]

/-- Embedding of `AIModels._parse_script(script_text, ...)`. (`app.py` lines 235-251).
The function looks for a brace-delimited substring, `json.loads` it, and
if that succeeds and the result has a `'script'` key it returns the parsed
dict UNCHANGED; on any failure it falls back to `_mock_script`.  JSON
decoding is external library behaviour, so the decoded result is the
parameter `jsonScript`: `some scenes` models a successful
`json.loads(script_text[start:end])` whose `'script'` entry holds those
scene dicts (e.g. the Python input
`'{"script": [{"scene_number": 7, "title": "X", "description": "d", "dialogue": []}]}'`
yields `some [⟨7, "X", "d", []⟩]`), and `none` models every failing
path. -/
def appParseScript (jsonScript : Option (List SceneSpec))
    (_title genre description : String) : List SceneSpec :=
  match jsonScript with
  | some scenes => scenes
  | none => appMockScriptScenes genre description

/-- A persisted scene row: exactly the `Scene` columns of
`backend/database_models.py` (lines 81-94).  `scene_music` and
`sound_effects` are deliberately NOT fields: they are not columns of that
model.  `backend/tasks.py` line 44 assigns `scene.scene_music` only as a
transient in-memory attribute (lost with that task's session, since only
columns persist), and nothing in the repository ever assigns
`scene.sound_effects`, so the attribute reads at `tasks.py` lines 155-156
on a freshly-queried row raise `AttributeError` — an error path modelled
in `generateFullMovie`. -/
structure Scene where
  id : ℕ
  movie_id : ℕ
  scene_number : ℕ
  description : String
  storyboard_url : Option String
  video_url : Option String
  audio_url : Option String
  status : String
  credits_used : ℤ
deriving Repr, DecidableEq

/-- A persisted movie row (`Movie` of `backend/database_models.py`, lines
60-76).  `credits_used` is not a column of that model, and the one
assignment to it (`tasks.py` line 176) sits in the unreachable tail of
`generate_full_movie` (see there), so the field is omitted.  (`app.py`'s
Flask `Movie` model does have such a column, but no modelled operation
writes it.) -/
structure Movie where
  id : ℕ
  user_id : ℕ
  title : String
  genre : String
  style : String
  description : String
  script : List SceneSpec
  status : String
  video_url : Option String
  poster_url : Option String
  trailer_url : Option String
deriving Repr, DecidableEq

/-- Modelled from the spec: the persistence collaborator.  The module
`backend/database.py` (sessions, `get_db`, engine) is imported by
`backend/main.py`, `movie_routes.py` and `backend/tasks.py` but is absent
from the repository, so per §6 of the spec ("Persistence collaborator:
CRUD + list scenes by movie ordered by scene_number + get movie by id
filtered by owner") the store is modelled as explicit state over one
user's movie: the movie row, its scene rows (in arbitrary
insertion/completion order), and the owner's `UserCredit.credits`
balance. -/
structure BackendState where
  movie : Movie
  scenes : List Scene
  userCredits : ℤ
deriving Repr, DecidableEq

/-- The scene rows created by `create_movie_api` (`app.py` lines 617-626):
one row per script entry, copying `scene_data['scene_number']` verbatim.
(`app.py`'s `Scene` model also stores title/dialogue; only the fields
shared with the backend model are tracked.) -/
def appCreateScenes (movieId : ℕ) (script : List SceneSpec) : List Scene :=
  script.map (fun sd =>
    { id := 0, movie_id := movieId, scene_number := sd.scene_number,
      description := sd.description, storyboard_url := none,
      video_url := none, audio_url := none, status := "pending",
      credits_used := 15 })

/-- Embedding of `create_movie_api` (`app.py` lines 591-637): generate the script
(JSON path or mock fallback), create the movie with status `'draft'`, and
create one scene per script entry with the script's `scene_number`. -/
def createMovieApp (jsonScript : Option (List SceneSpec))
    (userId : ℕ) (title genre style description : String) : Movie × List Scene :=
  let script := appParseScript jsonScript title genre description
  let movie : Movie :=
    { id := 1, user_id := userId, title := title, genre := genre,
      style := style, description := description, script := script,
      status := "draft", video_url := none, poster_url := none,
      trailer_url := none }
  (movie, appCreateScenes movie.id script)

/-- The scene rows created by the backend route `create_movie`
(`movie_routes.py` lines 82-94): one row per script entry with the
script's `scene_number` and status `'generating'`. -/
def backendCreateScenes (movieId : ℕ) (script : List SceneSpec) : List Scene :=
  script.map (fun sd =>
    { id := 0, movie_id := movieId, scene_number := sd.scene_number,
      description := sd.description, storyboard_url := none,
      video_url := none, audio_url := none, status := "generating",
      credits_used := 40 })

/-! ## Backend routes (`src/movie_routes.py`) -/

/-- Mutate the first list element satisfying `p` (SQLAlchemy's
`.filter(...).first()` followed by attribute assignment mutates one
row). -/
def updateFirst (p : Scene → Bool) (f : Scene → Scene) : List Scene → List Scene
  | [] => []
  | s :: rest => if p s then f s :: rest else s :: updateFirst p f rest

/-- Embedding of `finalize_movie` (`movie_routes.py` lines 186-211): reject with HTTP
400 unless every scene of the movie is `completed`; otherwise debit
`sum(scene.credits_used for scene in scenes)` from the owner's balance and
dispatch `generate_full_movie` (the dispatched task is applied separately,
see `finalizeAndRun`).  An error result models the raised `HTTPException`:
the function aborts before any mutation, so no state accompanies it. -/
def finalizeMovie (st : BackendState) : Except String (BackendState × ℤ) :=
  if st.scenes.all (fun s => s.status == "completed") then
    let total := (st.scenes.map (·.credits_used)).sum
    .ok ({ st with userCredits := st.userCredits - total }, total)
  else .error "Not all scenes are completed"

/-- Embedding of `update_scene` (`movie_routes.py` lines 127-147): 404 when the scene
does not exist (or belongs to another user — ownership is implicit in
`BackendState` holding one user's movie); `"regenerate"` resets status and
clears storyboard/video (not audio) and re-dispatches the worker;
`"accept"` sets status `completed`; any other action falls through both
branches and changes nothing.  All paths return
`"Scene {action}ed successfully"`. -/
def updateSceneRoute (st : BackendState) (sceneId : ℕ) (action : String) :
    Except String (BackendState × String) :=
  match st.scenes.find? (fun s => s.id == sceneId) with
  | none => .error "Scene not found"
  | some _ =>
    let scenes' :=
      if action == "regenerate" then
        updateFirst (fun s => s.id == sceneId)
          (fun s => { s with status := "generating", storyboard_url := none, video_url := none })
          st.scenes
      else if action == "accept" then
        updateFirst (fun s => s.id == sceneId) (fun s => { s with status := "completed" }) st.scenes
      else st.scenes
    .ok ({ st with scenes := scenes' }, "Scene " ++ action ++ "ed successfully")

/-! ## Scene generation worker (`generate_movie_scene`,
`backend/tasks.py` lines 9-56) -/

/-- Outcomes of the worker's generation calls, in call order:
`video_gen.generate_storyboard` (an `AttributeError` in the shipped code —
`VideoGenerationModel` has no such method — which is one possible
`.error`), `video_gen.generate_video` (consuming the storyboard URL),
`audio.generate_audio`, `audio.generate_scene_music`.  `.error` models a
raised exception, `.ok` a returned value. -/
structure SceneStepOutcomes where
  storyboard : Except String String
  video : String → Except String String
  audioStep : Except String String
  music : Except String String

/-- The worker body's sequential calls with Python exception
short-circuiting: the first raise aborts the remaining sub-steps. -/
def runSceneSteps (o : SceneStepOutcomes) : Except String (String × String × String × String) := do
  let sb ← o.storyboard
  let v ← o.video sb
  let a ← o.audioStep
  let m ← o.music
  pure (sb, v, a, m)

/-- Embedding of `generate_movie_scene(scene_id)` (`backend/tasks.py` lines 9-56).
Scene not found returns an error payload without touching state.  On any
exception the `except` block writes ONLY `scene.status = "failed"` and
commits (no reason field exists on `Scene`, and none of the URLs produced
by earlier sub-steps has been assigned yet — all assignments happen
together at lines 41-46 after every call succeeded).  On success the
column writes of lines 41-46 are persisted; the `scene.scene_music`
assignment at line 44 sets a transient non-column attribute that dies with
the task's session and therefore does not appear in the stored row. -/
def generateMovieScene (o : SceneStepOutcomes) (st : BackendState) (sceneId : ℕ) :
    BackendState :=
  match st.scenes.find? (fun s => s.id == sceneId) with
  | none => st
  | some _ =>
    match runSceneSteps o with
    | .error _ =>
      let markFailed := fun (s : Scene) => { s with status := "failed" }
      { st with scenes := updateFirst (fun s => s.id == sceneId) markFailed st.scenes }
    | .ok (sb, v, a, _m) =>
      let store := fun (s : Scene) =>
        { s with storyboard_url := some sb, video_url := some v,
                 audio_url := some a, credits_used := 15,
                 status := "completed" }
      { st with scenes := updateFirst (fun s => s.id == sceneId) store st.scenes }

/-! ## Assembler (`VideoGenerationModel.generate_multi_scene_video_with_audio`,
`ai_models.py` lines 390-446) and `generate_full_movie`
(`backend/tasks.py` lines 126-201) -/

/-- One entry of the `scenes_data` list built by `generate_full_movie`
(`backend/tasks.py` lines 148-159). -/
structure SceneData where
  title : String
  description : String
  storyboard_url : Option String
  video_url : Option String
  audio_url : Option String
  sound_effects : Option String
  scene_music : Option String
deriving Repr, DecidableEq

/-- The column-derived entries of the dict that the comprehension at
`backend/tasks.py` lines 149-158 attempts to build per completed scene.
In the program that comprehension never completes: its `sound_effects`
entry (line 155) reads an attribute that is neither a column nor ever
assigned, raising `AttributeError` — that raise is modelled in
`generateFullMovie`, not here.  This function only serves to state the
assembler-ordering claim about completed scenes hypothetically handed to
the assembler; its two payload entries are absent (`none`), which the
assembler itself treats as an empty dict via `scene.get` with a default
(`ai_models.py` line 408). -/
def sceneToData (s : Scene) : SceneData :=
  { title := "Scene " ++ toString s.scene_number,
    description := s.description, storyboard_url := s.storyboard_url,
    video_url := s.video_url, audio_url := s.audio_url,
    sound_effects := none, scene_music := none }

/-- External effects of assembly: whether `animate_single_image` produced
an existing local file for a scene (and its path), the path returned by
`_add_sound_effects_to_video` (total — it catches its own errors and falls
back to the input path), and the poster URL from `poster.generate_poster`
(total — it catches its own errors and falls back to a placeholder
URL). -/
structure AssemblerEnv where
  modelAvailable : Bool
  animate : SceneData → Option String
  enhance : SceneData → String → String
  posterUrl : String

/-- The per-scene step of the assembly loop (`ai_models.py` lines
402-424): skip a scene with a missing/empty `storyboard_url`, skip it when
animation yields no existing file, otherwise keep the enhanced clip.  The
clip is paired with the scene data it came from (the clip file embeds that
scene's own video and audio). -/
def clipResult (env : AssemblerEnv) (sd : SceneData) : Option (SceneData × String) :=
  match sd.storyboard_url with
  | none => none
  | some sb =>
    if sb = "" then none
    else (env.animate sd).map (fun p => (sd, env.enhance sd p))

/-- The ordered clip list accumulated by the assembly loop. -/
def assembleWithAudioClips (env : AssemblerEnv) (scenesData : List SceneData) :
    List (SceneData × String) :=
  scenesData.filterMap (clipResult env)

/-- Embedding of `_stitch_videos_with_audio` (`ai_models.py` lines 507-546): one clip
is returned as-is; otherwise the clips are concatenated IN LIST ORDER
(moviepy `concatenate_videoclips`, preserving each clip's audio) into one
output file. -/
def stitchWithAudioPath (clips : List (SceneData × String)) : String :=
  match clips with
  | [c] => c.2
  | _ => "final_movie_with_audio.mp4"

/-- Embedding of `generate_multi_scene_video_with_audio(scenes_data)` (`ai_models.py`
lines 390-446): placeholder URL when the SVD pipeline is unavailable or no
scene yielded a clip, else the stitched file.  The function catches every
exception and returns a placeholder URL, so it is total. -/
def generateMultiSceneVideoWithAudio (env : AssemblerEnv) (scenesData : List SceneData) :
    String :=
  if !env.modelAvailable then "https://sample-videos.com/zip/10/mp4/SampleVideo_1280x720_5mb.mp4"
  else
    let clips := assembleWithAudioClips env scenesData
    if clips.isEmpty then "https://sample-videos.com/zip/10/mp4/SampleVideo_1280x720_5mb.mp4"
    else stitchWithAudioPath clips

/-- Ascending `scene_number` order (the `ORDER BY scene_number` key). -/
def sceneLE (a b : Scene) : Prop :=
  a.scene_number ≤ b.scene_number

instance : DecidableRel sceneLE := fun a b => Nat.decLe a.scene_number b.scene_number

instance : IsTotal Scene sceneLE := ⟨fun a b => Nat.le_total a.scene_number b.scene_number⟩

instance : IsTrans Scene sceneLE := ⟨fun _ _ _ => Nat.le_trans⟩

/-- Embedding of `query(Scene).filter(status == "completed").order_by(scene_number)`:
the completed scenes sorted ascending by `scene_number` (insertion sort; a
SQL ORDER BY is any stable sort on the key). -/
def completedSorted (scenes : List Scene) : List Scene :=
  List.insertionSort sceneLE (scenes.filter (fun s => s.status == "completed"))

/-- Embedding of `generate_full_movie(movie_id)` (`backend/tasks.py` lines 126-201):
fetch the COMPLETED scenes ordered by `scene_number` (lines 139-142); with
none, return an error payload touching nothing (lines 144-145).
Otherwise the `scenes_data` comprehension (lines 148-159) evaluates
`scene.sound_effects` (line 155) on the first completed scene; that
attribute is neither a column of `database_models.Scene` nor assigned
anywhere in the repository, so the read raises `AttributeError` inside the
`try`, and the `except` branch at lines 195-201 sets ONLY the movie's
status to `"failed"` and commits.  The assembly, poster regeneration,
credit total and debit at lines 163-185 are unreachable dead code (see
`fullMovieTailDebit` for the debit they would have computed). -/
def generateFullMovie (st : BackendState) : BackendState :=
  let completed := completedSorted st.scenes
  if completed.isEmpty then st
  else { st with movie := { st.movie with status := "failed" } }

/-- The ordered clip list of a movie's final artifact: the completed
scenes in the query's `scene_number` order, handed (hypothetically — see
`sceneToData`) to the assembler, filtered and kept in order by the
assembly loop. -/
def fullMovieClips (env : AssemblerEnv) (scenes : List Scene) :
    List (SceneData × String) :=
  assembleWithAudioClips env ((completedSorted scenes).map sceneToData)

/-- The completed scenes that contribute a clip to the final artifact, in
assembly order. -/
def assembledScenes (env : AssemblerEnv) (scenes : List Scene) : List Scene :=
  (completedSorted scenes).filter (fun s => (clipResult env (sceneToData s)).isSome)

/-- The state kept by an `Except`-returning route: an error (a raised
`HTTPException`) leaves the store untouched. -/
def routeState (st : BackendState) : Except String (BackendState × String) → BackendState
  | .error _ => st
  | .ok (st', _) => st'

/-! ## Concrete instances used by counterexamples and witnesses -/

/-- An assembly environment in which every animation succeeds. -/
def envAllOk : AssemblerEnv :=
  { modelAvailable := true, animate := fun _ => some "clip.mp4",
    enhance := fun _ p => p, posterUrl := "poster.png" }

/-- A completed scene with all artifacts, scene number `n`, scene id `n`,
`credits_used = 15` (the value `generate_movie_scene` writes on
completion). -/
def doneScene (n : ℕ) : Scene :=
  { id := n, movie_id := 1, scene_number := n,
    description := "scene " ++ toString n,
    storyboard_url := some ("sb" ++ toString n ++ ".png"),
    video_url := some ("v" ++ toString n ++ ".mp4"),
    audio_url := some ("a" ++ toString n ++ ".mp3"),
    status := "completed", credits_used := 15 }

/-- A movie row mid-generation. -/
def sampleMovie : Movie :=
  { id := 1, user_id := 1, title := "Dawn", genre := "sci-fi", style := "cinematic",
    description := "explorers land on a forest moon", script := [],
    status := "generating", video_url := none, poster_url := none,
    trailer_url := none }

/-- A failed scene (number 2). -/
def failedScene : Scene :=
  { id := 2, movie_id := 1, scene_number := 2, description := "scene 2",
    storyboard_url := none, video_url := none, audio_url := none,
    status := "failed", credits_used := 40 }

/-- A freshly-dispatched scene without artifacts. -/
def pendingScene : Scene :=
  { id := 1, movie_id := 1, scene_number := 1, description := "opening",
    storyboard_url := none, video_url := none, audio_url := none,
    status := "generating", credits_used := 40 }

/-- State with one completed and one failed scene. -/
def stMixed : BackendState :=
  { movie := sampleMovie, scenes := [doneScene 1, failedScene], userCredits := 300 }

/-- Three completed scenes listed in task-completion order 3,1,2. -/
def scenesOutOfOrder : List Scene :=
  [doneScene 3, doneScene 1, doneScene 2]

/-- State with one artifact-less generating scene. -/
def stPending : BackendState :=
  { movie := sampleMovie, scenes := [pendingScene], userCredits := 300 }

/-- C7 — confirmed.  For the description "An explosion rocks the factory",
`_analyze_scene_for_sound_effects` returns a list containing an effect
from the "explosion" keyword group and one from the "factory" keyword
group, of length ≤ 5, with no duplicate names; and (last conjunct, by
definition of the embedding of lines 631-639) the function is dedup-by-name
keeping first occurrence, applied BEFORE truncation to 5.  The concrete
value shows the cut: the six detected effects lose `"shockwave"` to the
truncation. -/
theorem explosion_factory_sound_effects :
    ((analyzeSceneForSoundEffects "An explosion rocks the factory").map (fun e => e.name) =
      ["machinery_hum", "distant_machinery", "factory_ambience", "explosion", "debris"]) ∧
    (∃ e ∈ analyzeSceneForSoundEffects "An explosion rocks the factory", e.keyword = "explosion") ∧
    (∃ e ∈ analyzeSceneForSoundEffects "An explosion rocks the factory", e.keyword = "factory") ∧
    (analyzeSceneForSoundEffects "An explosion rocks the factory").length ≤ 5 ∧
    ((analyzeSceneForSoundEffects "An explosion rocks the factory").map (fun e => e.name)).Nodup ∧
    ((detectedEffects "An explosion rocks the factory").map (fun e => e.name) =
      ["machinery_hum", "distant_machinery", "factory_ambience", "explosion", "debris", "shockwave"]) ∧
    (∀ d, analyzeSceneForSoundEffects d = (dedupByName [] (detectedEffects d)).take 5) := by
  refine ⟨by decide, by decide, by decide, by decide, by decide, by decide, fun d => rfl⟩

/-! ## C8: mood analysis for a "forest" description with genre "sci-fi" -/

/-- C8 — counterexample.  The claim says a description containing "forest"
yields a mood from the forest keyword group rather than the sci-fi
genre default.  But no mood-keyword list contains "forest" at all, so for
the spec's own scenario description ("explorers land on a forest moon",
genre "sci-fi") `_analyze_scene_mood` returns exactly the sci-fi
genre-default mood `"mysterious"`. -/
theorem mood_forest_scifi_gets_genre_default :
    analyzeSceneMood "explorers land on a forest moon" "sci-fi" = "mysterious" ∧
    ((genreDefaultMoods.find? (fun p => p.1 == lowerStr "sci-fi")).map (fun p => p.2) =
      some "mysterious") ∧
    strContains (lowerStr "explorers land on a forest moon") "forest" = true ∧
    (∀ p ∈ moodKeywords, "forest" ∉ p.2) := by
  refine ⟨by decide, by decide, by decide, by decide⟩

/-- C8 — amended.  "forest" is only a sound-effects keyword, not a mood
keyword: a description containing "forest" and no mood keyword, with
genre "sci-fi", yields the sci-fi genre default `"mysterious"`; and when
no mood keyword matches and the genre is not in the default table, the
result is `"dramatic"`. -/
theorem analyzeSceneMood_amended :
    (∀ p ∈ moodKeywords, "forest" ∉ p.2) ∧
    analyzeSceneMood "explorers land on a forest moon" "sci-fi" = "mysterious" ∧
    (∀ desc genre,
      (∀ p ∈ moodKeywords, ∀ kw ∈ p.2, strContains (lowerStr desc) kw = false) →
      (∀ p ∈ genreDefaultMoods, (p.1 == lowerStr genre) = false) →
      analyzeSceneMood desc genre = "dramatic") := by
  refine ⟨by decide, by decide, fun desc genre h1 h2 => ?_⟩
  have hfind1 : moodKeywords.find?
      (fun p => p.2.any (fun kw => strContains (lowerStr desc) kw)) = none := by
    rw [List.find?_eq_none]
    intro p hp
    rw [Bool.not_eq_true, List.any_eq_false]
    intro kw hkw
    rw [Bool.not_eq_true]
    exact h1 p hp kw hkw
  have hfind2 : genreDefaultMoods.find? (fun p => p.1 == lowerStr genre) = none := by
    rw [List.find?_eq_none]
    intro p hp
    rw [Bool.not_eq_true]
    exact h2 p hp
  unfold analyzeSceneMood
  simp only [hfind1, hfind2]

/-- C8 — witness for the amended theorem: the description "zzz" matches no
mood keyword and "western" is not in the genre-default table, so the mood
is `"dramatic"`. -/
theorem analyzeSceneMood_amended_witness :
    analyzeSceneMood "zzz" "western" = "dramatic" :=
  analyzeSceneMood_amended.2.2 "zzz" "western" (by decide) (by decide)

/-! ## C6: script planning always returns at least 3 scenes? -/

/-- C6 — counterexample.  When the collaborator is configured and the HTTP
call RETURNS 200 with text the parser cannot segment (no scene headers),
`generate_script` returns the parse result as-is — zero scenes — instead
of the deterministic fallback (which always has exactly 3).  So the claim
"always returns a usable scene list of at least 3 scenes … in which case
the fixed deterministic fallback template is used" is false for malformed
successful responses. -/
theorem generateScript_no_fallback_on_unparseable :
    (generateScript true (ScriptApiOutcome.ok "hello world") "T" "G" "D").script = [] ∧
    (mockScriptScenes "G").length = 3 := by
  refine ⟨by decide, by decide⟩

/-- C6 — amended.  `generate_script` is total (never raises: every
exception path is caught and falls back) and its scenes are always
numbered sequentially from 1; when the collaborator is unavailable,
returns a non-200 response, or raises, the fallback yields exactly the
3-scene mock template; but a 200 response is parsed and returned as-is
and may contain fewer than 3 scenes (even zero). -/
theorem generateScript_amended (modelAvailable : Bool) (outcome : ScriptApiOutcome)
    (title genre description : String) :
    ((generateScript modelAvailable outcome title genre description).script.map
        (fun sd => sd.scene_number) =
      List.range' 1 (generateScript modelAvailable outcome title genre description).script.length) ∧
    (modelAvailable = false →
      (generateScript modelAvailable outcome title genre description).script =
        mockScriptScenes genre) ∧
    (outcome = ScriptApiOutcome.httpError →
      (generateScript modelAvailable outcome title genre description).script =
        mockScriptScenes genre) ∧
    (outcome = ScriptApiOutcome.failure →
      (generateScript modelAvailable outcome title genre description).script =
        mockScriptScenes genre) ∧
    (∀ text, outcome = ScriptApiOutcome.ok text → modelAvailable = true →
      (generateScript modelAvailable outcome title genre description).script =
        parseScript text) ∧
    (mockScriptScenes genre).length = 3 := by
  refine ⟨generateScript_numbers modelAvailable outcome title genre description,
    ?_, ?_, ?_, ?_, rfl⟩
  · intro h; subst h; rfl
  · intro h; subst h; cases modelAvailable <;> rfl
  · intro h; subst h; cases modelAvailable <;> rfl
  · intro text h hm; subst h; subst hm; rfl

/-- C6 — witness for the amended theorem at a concrete input: collaborator
unavailable, the fallback's three scenes numbered 1,2,3. -/
theorem generateScript_amended_witness :
    (generateScript false ScriptApiOutcome.failure "T" "G" "D").script =
      mockScriptScenes "G" ∧ (mockScriptScenes "G").length = 3 :=
  ⟨(generateScript_amended false ScriptApiOutcome.failure "T" "G" "D").2.1 rfl,
   (generateScript_amended false ScriptApiOutcome.failure "T" "G" "D").2.2.2.2.2⟩

/-! ## C3: scene numbering invariant across creation paths -/

theorem updateFirst_map_scene_number (p : Scene → Bool) (f : Scene → Scene)
    (hf : ∀ s, (f s).scene_number = s.scene_number) :
    ∀ l : List Scene, (updateFirst p f l).map (fun s => s.scene_number) =
      l.map (fun s => s.scene_number) := by
  intro l
  induction l with
  | nil => rfl
  | cons s rest ih =>
    unfold updateFirst
    by_cases hp : p s = true
    · simp [hp, hf s]
    · simp [hp, ih]

/-- C3 — counterexample.  `AIModels._parse_script` returns a successfully
JSON-decoded collaborator script UNCHANGED, and `create_movie_api` copies
`scene_data['scene_number']` into the rows verbatim, so a collaborator
script whose single scene is numbered 7 (Python input
`'{"script": [{"scene_number": 7, "title": "X", "description": "d", "dialogue": []}]}'`)
creates a movie whose scene-number set is {7}, not {1..1}. -/
theorem createMovieApp_passthrough_breaks_numbering :
    ((createMovieApp (some [⟨7, "X", "d", []⟩]) 1 "T" "G" "S" "D").2.map
      (fun s => s.scene_number) = [7]) ∧
    [7] ≠ List.range' 1 1 := by
  refine ⟨by decide, by decide⟩

/-- C3 — amended.  The deterministic fallback and the backend text parser
always produce scene_numbers 1..N (and no pipeline operation ever changes
a scene_number), but the JSON-extraction path of `create_movie_api` copies
the collaborator's scene_numbers through unvalidated, so for that path the
invariant holds only if the parsed collaborator output already satisfies
it. -/
theorem scene_numbers_amended :
    (∀ userId title genre style description,
      ((createMovieApp none userId title genre style description).2.map
        (fun s => s.scene_number)) = List.range' 1 5) ∧
    (∀ js userId title genre style description,
      ((createMovieApp (some js) userId title genre style description).2.map
        (fun s => s.scene_number)) = js.map (fun sd => sd.scene_number)) ∧
    (∀ movieId modelAvailable outcome title genre description,
      ((backendCreateScenes movieId
          (generateScript modelAvailable outcome title genre description).script).map
        (fun s => s.scene_number)) =
        List.range' 1 (generateScript modelAvailable outcome title genre description).script.length) ∧
    (∀ st sceneId action,
      ((routeState st (updateSceneRoute st sceneId action)).scenes.map
        (fun s => s.scene_number)) = st.scenes.map (fun s => s.scene_number)) ∧
    (∀ o st sceneId,
      ((generateMovieScene o st sceneId).scenes.map (fun s => s.scene_number)) =
        st.scenes.map (fun s => s.scene_number)) ∧
    (∀ st, (generateFullMovie st).scenes = st.scenes) := by
  refine ⟨?_, ?_, ?_, ?_, ?_, ?_⟩
  · intro userId title genre style description
    simp [createMovieApp, appParseScript, appCreateScenes, appMockScriptScenes,
      List.range']
  · intro js userId title genre style description
    simp only [createMovieApp, appParseScript, appCreateScenes, List.map_map]
    exact List.map_congr_left (fun sd _ => rfl)
  · intro movieId modelAvailable outcome title genre description
    unfold backendCreateScenes
    rw [List.map_map]
    exact generateScript_numbers modelAvailable outcome title genre description
  · intro st sceneId action
    unfold updateSceneRoute
    cases hfind : st.scenes.find? (fun s => s.id == sceneId) with
    | none => rfl
    | some sc =>
      simp only [routeState]
      by_cases hr : (action == "regenerate") = true
      · simp only [hr, if_true]
        apply updateFirst_map_scene_number
        intro s
        rfl
      · simp only [hr, Bool.false_eq_true, if_false]
        by_cases ha : (action == "accept") = true
        · simp only [ha, if_true]
          apply updateFirst_map_scene_number
          intro s
          rfl
        · simp only [ha, Bool.false_eq_true, if_false]
  · intro o st sceneId
    unfold generateMovieScene
    cases hfind : st.scenes.find? (fun s => s.id == sceneId) with
    | none => rfl
    | some sc =>
      cases hrun : runSceneSteps o with
      | error e =>
        apply updateFirst_map_scene_number
        intro s
        rfl
      | ok v =>
        apply updateFirst_map_scene_number
        intro s
        rfl
  · intro st
    unfold generateFullMovie
    by_cases h : (completedSorted st.scenes).isEmpty = true
    · simp only [h, if_true]
    · simp only [h, Bool.false_eq_true, if_false]

/-! ## C9: finalize rejects any incomplete scene, with no debit -/

/-- C9 — confirmed.  `finalize_movie` raises HTTP 400 ("Not all scenes are
completed") whenever any scene's status differs from `completed`,
BEFORE the credit query and debit and before any mutation (an `error`
result carries no successor state: the exception aborts the handler).  In
particular a movie containing a `failed` scene can never be finalized or
debited through this route. -/
theorem finalize_rejects_incomplete (st : BackendState)
    (h : ∃ s ∈ st.scenes, s.status ≠ "completed") :
    finalizeMovie st = Except.error "Not all scenes are completed" := by
  unfold finalizeMovie
  have hall : st.scenes.all (fun s => s.status == "completed") = false := by
    rcases h with ⟨s, hs, hne⟩
    rw [List.all_eq_false]
    exact ⟨s, hs, by simp [hne]⟩
  simp [hall]

/-- C9 — witness: a state whose second scene is `failed` is rejected. -/
theorem finalize_rejects_incomplete_witness :
    finalizeMovie stMixed = Except.error "Not all scenes are completed" :=
  finalize_rejects_incomplete stMixed ⟨failedScene, by decide, by decide⟩

/-! ## C10: `update_scene` semantics -/

/-- C10 — confirmed.  For any existing scene, action `"accept"` sets the
scene's status to `completed` unconditionally — whatever its prior status
and even when `storyboard_url`/`video_url`/`audio_url` are all absent
(`st` is arbitrary) — touching no other field; and any action other than
`"accept"`/`"regenerate"` falls through both branches, changes no scene
field at all, and still returns the success message
`"Scene {action}ed successfully"`. -/
theorem update_scene_accept_and_unknown_action (st : BackendState) (sceneId : ℕ)
    (action : String)
    (hfound : (st.scenes.find? (fun s => s.id == sceneId)).isSome = true)
    (hna : action ≠ "accept") (hnr : action ≠ "regenerate") :
    (updateSceneRoute st sceneId "accept" =
      Except.ok ({ st with
          scenes := updateFirst (fun s => s.id == sceneId)
                      (fun s => { s with status := "completed" }) st.scenes },
        "Scene accepted successfully")) ∧
    (updateSceneRoute st sceneId action =
      Except.ok (st, "Scene " ++ action ++ "ed successfully")) := by
  obtain ⟨sc, hsc⟩ := Option.isSome_iff_exists.mp hfound
  constructor
  · unfold updateSceneRoute
    rw [hsc]
    rfl
  · unfold updateSceneRoute
    rw [hsc]
    have h1 : (action == "regenerate") = false := beq_eq_false_iff_ne.mpr hnr
    have h2 : (action == "accept") = false := beq_eq_false_iff_ne.mpr hna
    simp only [h1, h2, Bool.false_eq_true, if_false]

/-- C10 — witness: accepting the artifact-less generating scene of
`stPending` marks it completed; the unknown action `"reject"` changes
nothing and still reports success. -/
theorem update_scene_witness :
    (updateSceneRoute stPending 1 "accept" =
      Except.ok ({ stPending with
          scenes := updateFirst (fun s => s.id == 1)
                      (fun s => { s with status := "completed" }) stPending.scenes },
        "Scene accepted successfully")) ∧
    (updateSceneRoute stPending 1 "reject" =
      Except.ok (stPending, "Scene rejected successfully")) :=
  update_scene_accept_and_unknown_action stPending 1 "reject"
    (by decide) (by decide) (by decide)

/-! ## C5: worker failure semantics -/

theorem clipResult_fst (env : AssemblerEnv) (sd : SceneData) (c : SceneData × String)
    (h : clipResult env sd = some c) : c.1 = sd := by
  unfold clipResult at h
  cases hsb : sd.storyboard_url with
  | none => rw [hsb] at h; simp at h
  | some sb =>
    rw [hsb] at h
    by_cases he : sb = ""
    · simp [he] at h
    · simp only [he, if_false] at h
      cases ha : env.animate sd with
      | none => rw [ha] at h; simp at h
      | some p =>
        rw [ha] at h
        simp only [Option.map_some', Option.some.injEq] at h
        rw [← h]

theorem assembleClips_map_fst (env : AssemblerEnv) :
    ∀ l : List SceneData, (assembleWithAudioClips env l).map Prod.fst =
      l.filter (fun sd => (clipResult env sd).isSome) := by
  intro l
  induction l with
  | nil => rfl
  | cons sd rest ih =>
    unfold assembleWithAudioClips at ih ⊢
    rw [List.filterMap_cons, List.filter_cons]
    cases hc : clipResult env sd with
    | none => simp [hc, ih]
    | some c =>
      simp only [hc, Option.isSome_some, if_true, List.map_cons, ih]
      rw [clipResult_fst env sd c hc]

/-- The clip sequence of the final artifact is exactly the data of the
kept completed scenes, in assembly order (each clip carries its own
scene's video and audio references). -/
theorem fullMovieClips_fst (env : AssemblerEnv) (scenes : List Scene) :
    (fullMovieClips env scenes).map Prod.fst =
      (assembledScenes env scenes).map sceneToData := by
  unfold fullMovieClips assembledScenes
  rw [assembleClips_map_fst, List.filter_map]
  rfl

/-- C4 — confirmed.  `generate_full_movie` reads the completed scenes
`ORDER BY scene_number` and the assembly loop preserves that order, so for
any stored order of the rows (i.e. any task-completion order) in which
every scene is completed and yields a usable clip, the final artifact's
clips follow ascending scene_number — for numbers {1..N}, exactly
1,…,N — and the i-th clip is built from the i-th kept scene's own data
(including its `audio_url`). -/
theorem fullMovieClips_ordered (env : AssemblerEnv) (dbScenes : List Scene)
    (hcomp : ∀ s ∈ dbScenes, s.status = "completed")
    (hkeep : ∀ s ∈ dbScenes, (clipResult env (sceneToData s)).isSome = true)
    (hperm : (dbScenes.map (fun s => s.scene_number)).Perm
      (List.range' 1 dbScenes.length)) :
    ((assembledScenes env dbScenes).map (fun s => s.scene_number) =
      List.range' 1 dbScenes.length) ∧
    ((fullMovieClips env dbScenes).map Prod.fst =
      (assembledScenes env dbScenes).map sceneToData) := by
  have hfilter : dbScenes.filter (fun s => s.status == "completed") = dbScenes := by
    rw [List.filter_eq_self]
    intro s hs
    simp [hcomp s hs]
  have hsorted_eq : completedSorted dbScenes = List.insertionSort sceneLE dbScenes := by
    unfold completedSorted
    rw [hfilter]
  have hassembled : assembledScenes env dbScenes = completedSorted dbScenes := by
    unfold assembledScenes
    rw [List.filter_eq_self]
    intro s hs
    rw [hsorted_eq, List.mem_insertionSort] at hs
    exact hkeep s hs
  refine ⟨?_, fullMovieClips_fst env dbScenes⟩
  rw [hassembled, hsorted_eq]
  have hsorted : List.Sorted sceneLE (List.insertionSort sceneLE dbScenes) :=
    List.sorted_insertionSort sceneLE dbScenes
  have hmapsorted : List.Sorted (· ≤ ·)
      ((List.insertionSort sceneLE dbScenes).map (fun s => s.scene_number)) :=
    List.Pairwise.map _ (fun _ _ hr => hr) hsorted
  have hmapperm : ((List.insertionSort sceneLE dbScenes).map
      (fun s => s.scene_number)).Perm (List.range' 1 dbScenes.length) :=
    ((List.perm_insertionSort sceneLE dbScenes).map _).trans hperm
  exact List.eq_of_perm_of_sorted hmapperm hmapsorted
    (List.pairwise_le_range' 1 dbScenes.length)

/-- C4 — witness: scenes numbered {1,2,3} stored in task-completion order
3,1,2 are assembled in scene order 1,2,3. -/
theorem fullMovieClips_ordered_witness :
    (assembledScenes envAllOk scenesOutOfOrder).map (fun s => s.scene_number) =
      List.range' 1 scenesOutOfOrder.length :=
  (fullMovieClips_ordered envAllOk scenesOutOfOrder
    (by decide) (by decide) (by decide)).1

/-! ## C1: finalize credit accounting -/

end Cineo
